import Mathlib

/-!
Verification of the telemetrix-rpi-pico-2w protocol engine
(`telemetrix_rpi_pico_2w_serial_aio.py`) against its natural-language
specification.

The Python class `TelemetrixRpiPico2WSerialAIO` is shallowly embedded as a
pure state-transition system: the engine's instance attributes become the
fields of `Engine`, every public coroutine becomes a function
`Engine → args → EngRes`, where `EngRes` carries the post state, the frames
delivered to the transport, the frames whose write was attempted, and the
Python exception (if any) escaping the call.  Python `raise` leaves already
performed attribute mutations in place, which the embedding reproduces by
carrying the mutated state inside the erroneous `EngRes`.
-/

namespace Telemetrix

/-- Python exceptions that can escape the engine's methods.  `runtimeError`
carries the message of the `RuntimeError` raised by the source;
`serialException` stands for pyserial's `SerialException`; `nameError`
models the unbound-local fault in `_send_command` after its swallowed
`ValueError`; the remaining constructors model the corresponding built-in
Python exception types. -/
inductive PyErr where
  | runtimeError (msg : String)
  | serialException
  | keyError
  | indexError
  | typeError
  | nameError
  | attributeError
  | structError
  deriving Repr, DecidableEq

/-- Exceptions swallowed by the bare `except (RuntimeError, SerialException)`
at the end of `shutdown` (source lines 1493-1494). -/
def PyErr.shutdownSwallows : PyErr → Bool
  | .runtimeError _ => true
  | .serialException => true
  | _ => false

/-- Lookup in a Python `dict` modelled as an association list
(`d[k]`, returning `none` where Python raises `KeyError`). -/
def dictGet {α : Type} (d : List (Nat × α)) (k : Nat) : Option α :=
  match d with
  | [] => none
  | (k2, v) :: rest => if k2 == k then some v else dictGet rest k

/-- Assignment `d[k] = v` on a Python `dict`: updates the entry in place when
the key exists and appends a fresh entry otherwise (insertion order is kept,
as CPython does). -/
def dictSet {α : Type} (d : List (Nat × α)) (k : Nat) (v : α) : List (Nat × α) :=
  match d with
  | [] => [(k, v)]
  | (k2, v2) :: rest =>
    if k2 == k then (k2, v) :: rest else (k2, v2) :: dictSet rest k v

/-- Membership test `k in d` on a Python `dict`. -/
def dictMem {α : Type} (d : List (Nat × α)) (k : Nat) : Bool :=
  (dictGet d k).isSome

/-- Presence test for the per-key callback dictionaries; only the presence of
a binding is observable to the claims, so the handlers themselves are erased
and a callback `dict` is the list of its bound keys. -/
def keyMem (ks : List Nat) (k : Nat) : Bool :=
  ks.contains k

/-- Binding a callback under a key: last write wins, presence recorded. -/
def keyInsert (ks : List Nat) (k : Nat) : List Nat :=
  if ks.contains k then ks else ks ++ [k]

/-! Pin-mode constants.  The numeric values are given by the source itself in
the `get_pico_pins` docstring (lines 543-567): DIGITAL_INPUT = 0,
DIGITAL_OUTPUT = 1, PWM_OUTPUT = 2, DIGITAL_INPUT_PULLUP = 3,
DIGITAL_INPUT_PULL_DOWN = 4, ANALOG_INPUT = 5, SERVO = 6, SONAR = 7,
DHT = 8, I2C = 9, NEO_PIXEL = 10, AT_MODE_NOT_SET = 255. -/

def AT_INPUT : Nat := 0
def AT_OUTPUT : Nat := 1
def AT_PWM_OUTPUT : Nat := 2
def AT_INPUT_PULLUP : Nat := 3
def AT_INPUT_PULL_DOWN : Nat := 4
def AT_ANALOG : Nat := 5
def AT_SERVO : Nat := 6
def AT_SONAR : Nat := 7
def AT_DHT : Nat := 8
def AT_I2C : Nat := 9
def AT_NEO_PIXEL : Nat := 10

/-- Modelled from the spec: the source takes `AT_SPI` from the
`private_constants` module of the companion package, which is not part of
this repository snapshot; any byte distinct from the other mode values
works, and 11 is the next free one. -/
def AT_SPI : Nat := 11

def AT_MODE_NOT_SET : Nat := 255

/-! Command identifiers.  Modelled from the spec: section 6 fixes the frame
shape but elides the enumerated command-id table (the constants live in the
companion `private_constants` module, outside this repository snapshot).
The claims only require the ids to be single distinct bytes, so consecutive
values are assigned. -/

def LOOP_COMMAND : Nat := 0
def SET_PIN_MODE : Nat := 1
def DIGITAL_WRITE : Nat := 2
def ANALOG_WRITE : Nat := 3
def MODIFY_REPORTING : Nat := 4
def GET_FIRMWARE_VERSION : Nat := 5
def I2C_BEGIN : Nat := 6
def I2C_READ : Nat := 7
def I2C_WRITE : Nat := 8
def SONAR_NEW : Nat := 9
def DHT_NEW : Nat := 10
def STOP_ALL_REPORTS : Nat := 11
def SET_PWM_RANGE : Nat := 12
def GET_CPU_TEMPERATURE : Nat := 13
def RESET_BOARD : Nat := 14
def RETRIEVE_PICO_UNIQUE_ID : Nat := 15
def INIT_NEOPIXELS : Nat := 16
def SET_NEOPIXEL : Nat := 17
def CLEAR_NEOPIXELS : Nat := 18
def FILL_NEOPIXELS : Nat := 19
def SHOW_NEOPIXELS : Nat := 20
def SPI_INIT : Nat := 21

/-- Modelled from the spec: placeholder register byte used by `i2c_read`
when no register is selected (constant elided with the rest of the id
table); 254 keeps it a valid byte. -/
def I2C_NO_REGISTER : Nat := 254

/-! Report identifiers.  The values documented in the source's own
docstrings are used (DIGITAL_REPORT = 2, ANALOG_REPORT = 3,
I2C_READ_REPORT = 10, SONAR_DISTANCE = 11, DHT_REPORT = 12,
SPI_REPORT = 13, CPU_TEMP_REPORT = 20); the remaining ids are modelled from
the spec's category list with fresh distinct bytes. -/

def DEBUG_PRINT : Nat := 1
def DIGITAL_REPORT : Nat := 2
def ANALOG_REPORT : Nat := 3
def UNIQUE_ID_REPORT : Nat := 4
def FIRMWARE_REPORT : Nat := 5
def SERVO_UNAVAILABLE : Nat := 6
def I2C_TOO_FEW_BYTES_RECEIVED : Nat := 7
def I2C_TOO_MANY_BYTES_RECEIVED : Nat := 8
def I2C_READ_REPORT : Nat := 10
def SONAR_DISTANCE : Nat := 11
def DHT_REPORT : Nat := 12
def SPI_REPORT : Nat := 13
def CPU_TEMP_REPORT : Nat := 20

/-- Maximum PWM duty cycle, documented in the source at line 197
("maximum pwm duty cycle - 20000"). -/
def MAX_PWM_DUTY_CYCLE : Nat := 20000

/-- Modelled from the spec: bounded count of ultrasonic device instances
(constant elided with the private-constants module); the exact ceiling is
irrelevant to every theorem below, which only need it positive. -/
def MAX_SONARS : Nat := 4

/-- Modelled from the spec: bounded count of DHT device instances, as for
`MAX_SONARS`. -/
def MAX_DHTS : Nat := 2

/-- The mutable attributes of `TelemetrixRpiPico2WSerialAIO` that the claims
are about, as initialized in `__init__` (lines 88-245).  `serialPort` is
`none` when no port object is attached and `some b` for an attached port
whose open state is `b`; `loopRunning` models the asyncio event loop that
`shutdown` stops. -/
structure Engine where
  pico_pins : List (Nat × Nat)
  i2c_sda_pins : List (Nat × Nat)
  i2c_scl_pins : List (Nat × Nat)
  servo_ranges : List (Nat × Nat × Nat)
  pwm_active_count : Nat
  sonar_count : Nat
  dht_count : Nat
  digital_callbacks : List Nat
  analog_callbacks : List Nat
  sonar_callbacks : List Nat
  dht_callbacks : List Nat
  i2c_callback : Bool
  i2c_callback2 : Bool
  spi_callback : Bool
  spi_callback2 : Bool
  cpu_temp_callback : Bool
  loop_back_callback : Bool
  i2c_0_active : Bool
  i2c_1_active : Bool
  spi_0_active : Bool
  spi_1_active : Bool
  cpu_temp_active : Bool
  neopixels_initiated : Bool
  number_of_pixels : Option Nat
  maximum_pwm_duty_cycle : Nat
  spi0_chip_select : Nat
  spi1_chip_select : Nat
  firmware_version : List Nat
  reported_pico_id : List Nat
  shutdown_flag : Bool
  serialPort : Option Bool
  loopRunning : Bool
  shutdown_on_exception : Bool
  reset_on_shutdown : Bool
  close_loop_on_shutdown : Bool
  deriving Repr, DecidableEq

/-- Result of running one engine method: the post state, the frames actually
delivered to the transport, the frames whose transport write was attempted
(delivered or not), and the escaping exception if the method raised. -/
structure EngRes where
  state : Engine
  sent : List (List Nat)
  attempted : List (List Nat)
  err : Option PyErr
  deriving Repr, DecidableEq

/-- A method step that returns normally without touching the transport. -/
def EngRes.ret (s : Engine) : EngRes := ⟨s, [], [], none⟩

/-- Sequential composition of engine steps: a raised exception aborts the
continuation, keeping the mutations and transmissions already performed
(Python semantics of an uncaught exception inside a method body). -/
def EngRes.seq (r : EngRes) (f : Engine → EngRes) : EngRes :=
  match r.err with
  | some _ => r
  | none =>
    let r2 := f r.state
    ⟨r2.state, r.sent ++ r2.sent, r.attempted ++ r2.attempted, r2.err⟩

/-- Framing step of `_send_command` (line 1751): the length byte, equal to
one plus the number of parameter bytes, is prepended to the id and the
parameters. -/
def frameCommand (command : List Nat) : List Nat :=
  command.length :: command

/-- Encoder of the Frame Codec: `bytes(command)` succeeds exactly when every
element of the framed list is a byte; otherwise `_send_command` swallows the
`ValueError` (line 1755) and fails. -/
def encodeFrame (command : List Nat) : Option (List Nat) :=
  if (frameCommand command).all (fun b => b < 256) then
    some (frameCommand command)
  else
    none

/-- Encoder at the id/payload interface of spec section 4.1. -/
def encodeCommand (commandId : Nat) (paramBytes : List Nat) : Option (List Nat) :=
  encodeFrame (commandId :: paramBytes)

/-- Decoder of the Frame Codec, from `_pico_report_dispatcher`
(lines 1538-1556): read one length byte, then exactly that many further
bytes; the first payload byte is the dispatch id and the remainder the
payload.  A short stream is a transport fault and an empty packet faults at
`packet[0]`; both decode to `none`. -/
def decodeFrame (stream : List Nat) : Option (Nat × List Nat) :=
  match stream with
  | [] => none
  | len :: rest =>
    if len ≤ rest.length then
      match rest.take len with
      | [] => none
      | rid :: payload => some (rid, payload)
    else
      none

/-- The body of `_send_command` (lines 1742-1766) after framing: a non-byte
element leaves `send_message` unbound (the `ValueError` is printed and
swallowed) so the write line raises an unbound-local fault; a missing port
raises `RuntimeError`; a write on a closed port is a transport fault.  The
transport itself is outside this repository snapshot, so its write-on-closed
behaviour is modelled from the spec (section 7: writing a closed stream is a
`TransportFault`, pyserial's `SerialException`).  The source would re-enter
`shutdown` before raising in the missing-port case when
`shutdown_on_exception` is set, which recurses back into `_send_command`
without bound; that unreachable-for-us path is modelled as the bare raise. -/
def sendCommand (s : Engine) (command : List Nat) : EngRes :=
  match encodeFrame command with
  | none => ⟨s, [], [], some PyErr.nameError⟩
  | some framed =>
    match s.serialPort with
    | none => ⟨s, [], [], some (PyErr.runtimeError "Is your USB cable plugged in?")⟩
    | some true => ⟨s, [framed], [framed], none⟩
    | some false => ⟨s, [], [framed], some PyErr.serialException⟩

/-- The `self.serial_port.close()` step of `shutdown` (line 1490): closing an
attached port marks it closed; with no port attached the attribute access on
`None` faults. -/
def closePort (s : Engine) : EngRes :=
  match s.serialPort with
  | none => ⟨s, [], [], some PyErr.attributeError⟩
  | some _ => EngRes.ret { s with serialPort := some false }

/-- The `try` body of `shutdown` (lines 1478-1492): stop all reports,
optionally reset the board, close the port, optionally stop the loop. -/
def shutdownBody (s : Engine) : EngRes :=
  (sendCommand s [STOP_ALL_REPORTS]).seq fun s1 =>
    (if s1.reset_on_shutdown then sendCommand s1 [RESET_BOARD] else EngRes.ret s1).seq fun s2 =>
      (closePort s2).seq fun s3 =>
        EngRes.ret (if s3.close_loop_on_shutdown then { s3 with loopRunning := false } else s3)

/-- `shutdown` (lines 1470-1494): sets the shutdown flag, runs the teardown
body, and swallows any `RuntimeError` or `SerialException` the body raises.
There is no guard on `shutdown_flag` at entry: a repeated call re-runs the
body. -/
def shutdown (s : Engine) : EngRes :=
  let r := shutdownBody { s with shutdown_flag := true }
  match r.err with
  | some e => if e.shutdownSwallows then ⟨r.state, r.sent, r.attempted, none⟩ else r
  | none => r

/-- The raise pattern shared by every public method (e.g. lines 477-482):
when `shutdown_on_exception` is set, `shutdown` runs first and the
`RuntimeError` is raised from the state `shutdown` leaves behind; an
exception escaping `shutdown` itself would pre-empt the `RuntimeError`. -/
def raiseRT (s : Engine) (msg : String) : EngRes :=
  if s.shutdown_on_exception then
    let r := shutdown s
    match r.err with
    | some _ => r
    | none => ⟨r.state, r.sent, r.attempted, some (PyErr.runtimeError msg)⟩
  else
    ⟨s, [], [], some (PyErr.runtimeError msg)⟩

/-- Final steps of `_set_pin_mode` (lines 1456-1468): for analog modes the
ADC index is mapped back onto GPIO table entries; every other mode writes
the pin's state a second time; then the command is transmitted. -/
def setPinModeFinish (s : Engine) (pin_number pin_state : Nat) (command : List Nat) : EngRes :=
  let s :=
    if pin_state == AT_ANALOG then
      if pin_number == 0 then { s with pico_pins := dictSet s.pico_pins 26 AT_ANALOG }
      else if pin_number == 1 then { s with pico_pins := dictSet s.pico_pins 27 AT_ANALOG }
      else if pin_number == 13 then { s with pico_pins := dictSet s.pico_pins 28 AT_ANALOG }
      else s
    else
      { s with pico_pins := dictSet s.pico_pins pin_number pin_state }
  sendCommand s command

/-- Tail of `_set_pin_mode` (lines 1406-1468) after the first table update:
callback registration, command construction by mode (the servo branch also
stores the pulse range), the second table update, and the transmit. -/
def setPinModeRest (s : Engine) (pin_number pin_state differential value_range : Nat)
    (hasCallback : Bool) : EngRes :=
  let s :=
    if hasCallback then
      if pin_state == AT_INPUT ∨ pin_state == AT_INPUT_PULLUP ∨
          pin_state == AT_INPUT_PULL_DOWN then
        { s with digital_callbacks := keyInsert s.digital_callbacks pin_number }
      else if pin_state == AT_ANALOG then
        { s with analog_callbacks := keyInsert s.analog_callbacks pin_number }
      else s
    else s
  if pin_state == AT_INPUT then
    setPinModeFinish s pin_number pin_state [SET_PIN_MODE, pin_number, AT_INPUT, 1]
  else if pin_state == AT_INPUT_PULLUP then
    setPinModeFinish s pin_number pin_state [SET_PIN_MODE, pin_number, AT_INPUT_PULLUP, 1]
  else if pin_state == AT_INPUT_PULL_DOWN then
    setPinModeFinish s pin_number pin_state [SET_PIN_MODE, pin_number, AT_INPUT_PULL_DOWN, 1]
  else if pin_state == AT_OUTPUT then
    setPinModeFinish s pin_number pin_state [SET_PIN_MODE, pin_number, AT_OUTPUT]
  else if pin_state == AT_ANALOG then
    setPinModeFinish s pin_number pin_state
      [SET_PIN_MODE, pin_number, AT_ANALOG, differential / 256, differential % 256, 1]
  else if pin_state == AT_PWM_OUTPUT then
    setPinModeFinish s pin_number pin_state [SET_PIN_MODE, pin_number, AT_PWM_OUTPUT]
  else if pin_state == AT_SERVO then
    setPinModeFinish
      { s with servo_ranges := dictSet s.servo_ranges pin_number (differential, value_range) }
      pin_number pin_state [SET_PIN_MODE, pin_number, AT_PWM_OUTPUT]
  else
    raiseRT s "Unknown pin state"

/-- `_set_pin_mode` (lines 1372-1468).  For analog modes the entry `26 +
pin_number` is written into the pin table (a `dict` assignment, which
inserts the key when absent); for every other mode an unknown key raises
before any mutation. -/
def setPinMode (s : Engine) (pin_number pin_state differential value_range : Nat)
    (hasCallback : Bool) : EngRes :=
  if pin_state == AT_ANALOG then
    setPinModeRest { s with pico_pins := dictSet s.pico_pins (26 + pin_number) AT_ANALOG }
      pin_number pin_state differential value_range hasCallback
  else if dictMem s.pico_pins pin_number then
    setPinModeRest { s with pico_pins := dictSet s.pico_pins pin_number pin_state }
      pin_number pin_state differential value_range hasCallback
  else
    raiseRT s "Gpio Pin Number is invalid"

/-- `set_pin_mode_digital_output` (lines 908-915). -/
def set_pin_mode_digital_output (s : Engine) (pin_number : Nat) : EngRes :=
  setPinMode s pin_number AT_OUTPUT 0 0 false

/-- `set_pin_mode_digital_input` (lines 852-868); the callback argument is
tracked only by its presence. -/
def set_pin_mode_digital_input (s : Engine) (pin_number : Nat) (hasCallback : Bool) : EngRes :=
  setPinMode s pin_number AT_INPUT 0 0 hasCallback

/-- `set_pin_mode_servo` (lines 1078-1096): delegates to `_set_pin_mode`
with the servo mode (which stores the pulse range and transmits a PWM-mode
command) and then re-marks the pin as servo in the table. -/
def set_pin_mode_servo (s : Engine) (pin_number min_pulse max_pulse : Nat) : EngRes :=
  (setPinMode s pin_number AT_SERVO min_pulse max_pulse false).seq fun s2 =>
    EngRes.ret { s2 with pico_pins := dictSet s2.pico_pins pin_number AT_SERVO }

/-- `set_pin_mode_pwm_output` (lines 953-981).  For a known pin the table is
updated to PWM before the capacity test `pwm_active_count >= 15`; only when
that test passes is the counter incremented and `_set_pin_mode` run.  The
unknown-pin branch of the source dereferences the undefined local
`pixel_number` and therefore faults with an unbound-name error instead of
reaching its `RuntimeError`. -/
def set_pin_mode_pwm_output (s : Engine) (pin_number : Nat) : EngRes :=
  if dictMem s.pico_pins pin_number then
    let s := { s with pico_pins := dictSet s.pico_pins pin_number AT_PWM_OUTPUT }
    if 15 ≤ s.pwm_active_count then
      raiseRT s "pwm or servo set mode: number of active PWM pins is at maximum"
    else
      setPinMode { s with pwm_active_count := s.pwm_active_count + 1 }
        pin_number AT_PWM_OUTPUT 0 0 false
  else
    ⟨s, [], [], some PyErr.nameError⟩

/-- `set_pin_mode_i2c` (lines 983-1043). -/
def set_pin_mode_i2c (s : Engine) (i2c_port sda_gpio scl_gpio : Nat) : EngRes :=
  if ¬ (i2c_port == 0 ∨ i2c_port == 1) then
    raiseRT s "i2c port must be either a 0 or 1"
  else if ¬ dictMem s.i2c_sda_pins sda_gpio then
    raiseRT s "invalid i2c SDA GPIO"
  else if ¬ dictMem s.i2c_scl_pins scl_gpio then
    raiseRT s "invalid i2c SCL GPIO"
  else if ¬ (dictGet s.i2c_sda_pins sda_gpio == some 255) then
    raiseRT s "GPIO SDA pin is already in use."
  else if ¬ (dictGet s.i2c_scl_pins scl_gpio == some 255) then
    raiseRT s "GPIO SCL pin is already in use."
  else
    let s := { s with
      i2c_sda_pins := dictSet s.i2c_sda_pins sda_gpio i2c_port,
      i2c_scl_pins := dictSet s.i2c_scl_pins scl_gpio i2c_port }
    let s := { s with
      pico_pins := dictSet (dictSet s.pico_pins sda_gpio AT_I2C) scl_gpio AT_I2C }
    let s := if i2c_port == 0 then { s with i2c_0_active := true }
             else { s with i2c_1_active := true }
    sendCommand s [I2C_BEGIN, i2c_port, sda_gpio, scl_gpio]

/-- `set_pin_mode_sonar` (lines 1338-1370): no validation of either pin key
is performed; the `dict` assignments insert unknown keys into the table. -/
def set_pin_mode_sonar (s : Engine) (trigger_pin echo_pin : Nat) (hasCallback : Bool) : EngRes :=
  if ¬ hasCallback then
    raiseRT s "set_pin_mode_sonar: A Callback must be specified"
  else if s.sonar_count < MAX_SONARS then
    let s := { s with
      sonar_callbacks := keyInsert s.sonar_callbacks trigger_pin,
      sonar_count := s.sonar_count + 1 }
    let s := { s with
      pico_pins := dictSet (dictSet s.pico_pins trigger_pin AT_SONAR) echo_pin AT_SONAR }
    sendCommand s [SONAR_NEW, trigger_pin, echo_pin]
  else
    raiseRT s "Maximum number of supported sonar devices exceeded."

/-- `set_pin_mode_dht` (lines 1045-1075): also performs no pin-key
validation. -/
def set_pin_mode_dht (s : Engine) (pin : Nat) (hasCallback : Bool) : EngRes :=
  if ¬ hasCallback then
    raiseRT s "set_pin_mode_dht: A Callback must be specified"
  else if s.dht_count < MAX_DHTS then
    let s := { s with
      dht_callbacks := keyInsert s.dht_callbacks pin,
      dht_count := s.dht_count + 1,
      pico_pins := dictSet s.pico_pins pin AT_DHT }
    sendCommand s [DHT_NEW, pin]
  else
    raiseRT s "Maximum Number Of DHTs Exceeded - set_pin_mode_dht fails"

/-- `set_pin_mode_neopixel` (lines 917-951): colour range checks, then the
command is transmitted and the pin table updated without any pin-key
validation. -/
def set_pin_mode_neopixel (s : Engine) (pin_number num_pixels fill_r fill_g fill_b : Nat) :
    EngRes :=
  if fill_r ≤ 255 ∧ fill_g ≤ 255 ∧ fill_b ≤ 255 then
    let s := { s with number_of_pixels := some num_pixels }
    (sendCommand s [INIT_NEOPIXELS, pin_number, num_pixels, fill_r, fill_g, fill_b]).seq
      fun s2 => EngRes.ret { s2 with
        pico_pins := dictSet s2.pico_pins pin_number AT_NEO_PIXEL,
        neopixels_initiated := true }
  else
    raiseRT s "RGB values must be in the range of 0-255"

/-- `digital_write` (lines 468-484): the table entry must be
`AT_OUTPUT` (a missing key faults at the `dict` access); on success exactly
one framed command is transmitted. -/
def digital_write (s : Engine) (pin value : Nat) : EngRes :=
  match dictGet s.pico_pins pin with
  | none => ⟨s, [], [], some PyErr.keyError⟩
  | some m =>
    if ¬ (m == AT_OUTPUT) then
      raiseRT s "digital_write: You must set the pin mode before performing a digital write."
    else
      sendCommand s [DIGITAL_WRITE, pin, value]

/-- `pwm_write` (lines 588-616).  The duty cycle is serialized big-endian in
two bytes; `duty_cycle.to_bytes(2)` requires the guarded value to fit, which
the range check against `maximum_pwm_duty_cycle` ensures for every
configuration the engine can reach. -/
def pwm_write (s : Engine) (pin duty_cycle : Nat) : EngRes :=
  match dictGet s.pico_pins pin with
  | none => ⟨s, [], [], some PyErr.keyError⟩
  | some m =>
    if ¬ (m == AT_PWM_OUTPUT) ∧ ¬ (m == AT_SERVO) then
      raiseRT s "pwm_write: You must set the pin mode before performing an pwm write."
    else if ¬ (duty_cycle ≤ s.maximum_pwm_duty_cycle) then
      raiseRT s "Raw PWM duty cycle out of range"
    else
      sendCommand s [ANALOG_WRITE, pin, duty_cycle / 256, duty_cycle % 256]

/-- Number of positional parameters accepted by `pwm_write`
(`pin, duty_cycle`, line 588). -/
def pwmWriteParamCount : Nat := 2

/-- Number of positional arguments `servo_write` passes to `pwm_write`
(line 1209: `pin_number, duty_cycle, True`). -/
def servoWriteCallArgCount : Nat := 3

/-- The Python positional-call rule: invoking a function declared with
`arity` positional parameters on more arguments raises `TypeError` at the
call site, before the callee body runs. -/
def callWithArity (arity given : Nat) (s : Engine) (body : Engine → EngRes) : EngRes :=
  if given ≤ arity then body s else ⟨s, [], [], some PyErr.typeError⟩

/-- `servo_write` (lines 1184-1209): after the mode guard and the
duty-cycle computation (done in floating point by the source; the value is
never consumed because the call below faults) it invokes `pwm_write` with
three positional arguments against a two-parameter signature. -/
def servo_write (s : Engine) (pin_number value : Nat) : EngRes :=
  match dictGet s.pico_pins pin_number with
  | none => ⟨s, [], [], some PyErr.keyError⟩
  | some m =>
    if ¬ (m == AT_SERVO) then
      raiseRT s "You must call set_pin_mode_servo before trying to write a value to a servo"
    else
      match dictGet s.servo_ranges pin_number with
      | none => ⟨s, [], [], some PyErr.keyError⟩
      | some (min_duty, max_duty) =>
        let duty_cycle := value * (max_duty - min_duty) / 180 + min_duty
        callWithArity pwmWriteParamCount servoWriteCallArgCount s fun s2 =>
          pwm_write s2 pin_number duty_cycle

/-- `i2c_read` (lines 618-682).  The port-activity ladder reproduces the
source exactly: port 0 is guarded by `i2c_0_active`; for any other port the
guard runs only when the port is *not* 1 — and then tests `i2c_0_active`
while naming port 1 in its message — so a call with `i2c_port == 1` skips
every activity check.  The register is replaced by `I2C_NO_REGISTER` when
falsy (`None` or 0). -/
def i2c_read (s : Engine) (address : Nat) (register : Option Nat) (number_of_bytes : Nat)
    (hasCallback : Bool) (i2c_port : Nat) (no_stop : Bool) : EngRes :=
  if ¬ hasCallback then
    raiseRT s "I2C Read: A callback function must be specified."
  else
    let guarded : EngRes :=
      if i2c_port == 0 then
        if ¬ s.i2c_0_active then
          raiseRT s "I2C Write: set_pin_mode_i2c never called for i2c port 0."
        else
          EngRes.ret { s with i2c_callback := true }
      else
        if ¬ (i2c_port == 1) then
          if ¬ s.i2c_0_active then
            raiseRT s "I2C Write: set_pin_mode_i2c never called for i2c port 1."
          else
            EngRes.ret { s with i2c_callback2 := true }
        else
          EngRes.ret s
    guarded.seq fun s2 =>
      let reg : Nat :=
        match register with
        | none => I2C_NO_REGISTER
        | some 0 => I2C_NO_REGISTER
        | some r => r
      sendCommand s2
        [I2C_READ, i2c_port, address, reg, number_of_bytes, cond no_stop 1 0]

/-- `i2c_write` (lines 684-720): both ports are guarded (contrast with
`i2c_read`). -/
def i2c_write (s : Engine) (address : Nat) (args : List Nat) (i2c_port : Nat)
    (no_stop : Bool) : EngRes :=
  if i2c_port == 0 then
    if ¬ s.i2c_0_active then
      raiseRT s "I2C Write: set_pin_mode i2c never called for i2c port 0."
    else
      sendCommand s ([I2C_WRITE, i2c_port, address, args.length, cond no_stop 1 0] ++ args)
  else
    if ¬ s.i2c_1_active then
      raiseRT s "I2C Write: set_pin_mode i2c never called for i2c port 2."
    else
      sendCommand s ([I2C_WRITE, i2c_port, address, args.length, cond no_stop 1 0] ++ args)

/-- The pin table built in `__init__` (lines 210-217): GPIO 0-22, then
25-28, then 64, all initially `AT_MODE_NOT_SET` (GPIO 23 and 24 are absent
because the Pico does not expose them). -/
def initialPicoPins : List (Nat × Nat) :=
  ((List.range 23).map fun p => (p, AT_MODE_NOT_SET)) ++
    [(25, AT_MODE_NOT_SET), (26, AT_MODE_NOT_SET), (27, AT_MODE_NOT_SET),
     (28, AT_MODE_NOT_SET), (64, AT_MODE_NOT_SET)]

/-- The legal SDA pins (lines 221-222): even GPIOs 2-20, plus 26, unassigned
(value 255). -/
def initialSdaPins : List (Nat × Nat) :=
  ((List.range 10).map fun n => (2 + 2 * n, 255)) ++ [(26, 255)]

/-- The legal SCL pins (lines 224-225): odd GPIOs 3-21, plus 27. -/
def initialSclPins : List (Nat × Nat) :=
  ((List.range 10).map fun n => (3 + 2 * n, 255)) ++ [(27, 255)]

/-- The default servo ranges (lines 228-233): each legal GPIO maps to the
pulse range 1000-2000. -/
def initialServoRanges : List (Nat × Nat × Nat) :=
  ((List.range 23).map fun p => (p, (1000, 2000))) ++
    [(25, (1000, 2000)), (26, (1000, 2000)), (27, (1000, 2000)), (28, (1000, 2000))]

/-- Engine state right after `__init__` (lines 88-245) with the given
configuration flags; no serial port is attached yet. -/
def freshEngine (soe reset closeLoop : Bool) : Engine where
  pico_pins := initialPicoPins
  i2c_sda_pins := initialSdaPins
  i2c_scl_pins := initialSclPins
  servo_ranges := initialServoRanges
  pwm_active_count := 0
  sonar_count := 0
  dht_count := 0
  digital_callbacks := []
  analog_callbacks := []
  sonar_callbacks := []
  dht_callbacks := []
  i2c_callback := false
  i2c_callback2 := false
  spi_callback := false
  spi_callback2 := false
  cpu_temp_callback := false
  loop_back_callback := false
  i2c_0_active := false
  i2c_1_active := false
  spi_0_active := false
  spi_1_active := false
  cpu_temp_active := false
  neopixels_initiated := false
  number_of_pixels := none
  maximum_pwm_duty_cycle := MAX_PWM_DUTY_CYCLE
  spi0_chip_select := 17
  spi1_chip_select := 13
  firmware_version := []
  reported_pico_id := []
  shutdown_flag := false
  serialPort := none
  loopRunning := true
  shutdown_on_exception := soe
  reset_on_shutdown := reset
  close_loop_on_shutdown := closeLoop

/-- A fresh session with the default configuration and an attached, open
serial port (the state `start_aio` reaches once a board is found). -/
def readyEngine : Engine :=
  { freshEngine true true true with serialPort := some true }

/-! The Report Dispatcher.  `report_dispatch` (lines 108-136) is a fixed
table from report id to handler; the dispatcher loop (lines 1525-1564)
decodes one frame and indexes the table with the first payload byte — a
`dict` access that faults with `KeyError` on an unknown id, outside every
`try` of the loop. -/

/-- The handler categories installed in `report_dispatch`. -/
inductive Handler where
  | loopData
  | debugData
  | digitalMsg
  | analogMsg
  | cpuTemp
  | uniqueId
  | firmwareVer
  | servoUnavail
  | i2cReadRep
  | i2cTooFew
  | i2cTooMany
  | sonarDist
  | dhtRep
  | spiRep
  deriving Repr, DecidableEq

/-- The fixed id-to-handler table of `__init__` (lines 108-136). -/
def reportDispatchTable : List (Nat × Handler) :=
  [(LOOP_COMMAND, .loopData),
   (DEBUG_PRINT, .debugData),
   (DIGITAL_REPORT, .digitalMsg),
   (ANALOG_REPORT, .analogMsg),
   (CPU_TEMP_REPORT, .cpuTemp),
   (UNIQUE_ID_REPORT, .uniqueId),
   (FIRMWARE_REPORT, .firmwareVer),
   (SERVO_UNAVAILABLE, .servoUnavail),
   (I2C_READ_REPORT, .i2cReadRep),
   (I2C_TOO_FEW_BYTES_RECEIVED, .i2cTooFew),
   (I2C_TOO_MANY_BYTES_RECEIVED, .i2cTooMany),
   (SONAR_DISTANCE, .sonarDist),
   (DHT_REPORT, .dhtRep),
   (SPI_REPORT, .spiRep)]

/-- `_digital_message` (lines 1649-1666): a short payload is dropped via the
caught `IndexError`, but the per-pin callback lookup is a bare `dict` access
that faults with `KeyError` when no binding exists; a found binding is
invoked (invocation itself has no engine effect). -/
def digitalMessage (s : Engine) (data : List Nat) : EngRes :=
  match data with
  | pin :: _value :: _ =>
    if keyMem s.digital_callbacks pin then EngRes.ret s
    else ⟨s, [], [], some PyErr.keyError⟩
  | _ => EngRes.ret s

/-- `_analog_message` (lines 1566-1580): reads three payload bytes (an
`IndexError` on a short payload is not caught here), then performs the bare
per-pin callback lookup. -/
def analogMessage (s : Engine) (data : List Nat) : EngRes :=
  match data with
  | pin :: _hi :: _lo :: _ =>
    if keyMem s.analog_callbacks pin then EngRes.ret s
    else ⟨s, [], [], some PyErr.keyError⟩
  | _ => ⟨s, [], [], some PyErr.indexError⟩

/-- `_cpu_temp_message` (lines 342-357): `struct.unpack` demands exactly four
bytes; the optional callback is then invoked. -/
def cpuTempMessage (s : Engine) (data : List Nat) : EngRes :=
  if data.length == 4 then EngRes.ret s else ⟨s, [], [], some PyErr.structError⟩

/-- `_report_unique_id` (lines 1714-1721). -/
def reportUniqueId (s : Engine) (data : List Nat) : EngRes :=
  EngRes.ret { s with reported_pico_id := s.reported_pico_id ++ data }

/-- `_report_firmware_version` (lines 1723-1730). -/
def reportFirmwareVersion (s : Engine) (data : List Nat) : EngRes :=
  EngRes.ret { s with firmware_version := s.firmware_version ++ data }

/-- `_report_debug_data` (lines 1732-1740): reads three payload bytes. -/
def reportDebugData (s : Engine) (data : List Nat) : EngRes :=
  if data.length ≥ 3 then EngRes.ret s else ⟨s, [], [], some PyErr.indexError⟩

/-- `_servo_unavailable` (lines 1768-1776): optional shutdown, then a
`RuntimeError` naming the pin taken from the report. -/
def servoUnavailable (s : Engine) (report : List Nat) : EngRes :=
  match report with
  | [] =>
    if s.shutdown_on_exception then
      (shutdown s).seq fun s2 => ⟨s2, [], [], some PyErr.indexError⟩
    else ⟨s, [], [], some PyErr.indexError⟩
  | _ :: _ => raiseRT s "Servo Attach Failed: No Available Servos"

/-- `_i2c_read_report` (lines 1668-1683): two leading payload bytes are
required; the port byte selects which of the two bus callbacks is invoked,
and an unbound one is a call on `None` (`TypeError`). -/
def i2cReadReport (s : Engine) (data : List Nat) : EngRes :=
  match data with
  | port :: _addr :: _ =>
    if port ≠ 0 then
      if s.i2c_callback2 then EngRes.ret s else ⟨s, [], [], some PyErr.typeError⟩
    else
      if s.i2c_callback then EngRes.ret s else ⟨s, [], [], some PyErr.typeError⟩
  | _ => ⟨s, [], [], some PyErr.indexError⟩

/-- `_i2c_too_few_bytes_received` (lines 1685-1693): prints, then shuts the
engine down when configured to; nothing is raised. -/
def i2cByteCountFault (s : Engine) (data : List Nat) : EngRes :=
  match data with
  | [] => ⟨s, [], [], some PyErr.indexError⟩
  | _ :: _ => if s.shutdown_on_exception then shutdown s else EngRes.ret s

/-- `_sonar_distance_report` (lines 1778-1798): bare callback lookup keyed by
the trigger pin, then two distance bytes are read. -/
def sonarDistanceReport (s : Engine) (report : List Nat) : EngRes :=
  match report with
  | [] => ⟨s, [], [], some PyErr.indexError⟩
  | trigger :: rest =>
    if keyMem s.sonar_callbacks trigger then
      if rest.length ≥ 2 then EngRes.ret s else ⟨s, [], [], some PyErr.indexError⟩
    else ⟨s, [], [], some PyErr.keyError⟩

/-- `_dht_report` (lines 1582-1639): the error branch performs a bare
callback lookup (an absent binding faults), while the data branch wraps its
callback call in `try ... except KeyError` and so drops the report when the
binding is absent. -/
def dhtReport (s : Engine) (report : List Nat) : EngRes :=
  match report with
  | err :: pin :: rest =>
    if err ≠ 0 then
      if keyMem s.dht_callbacks pin then EngRes.ret s
      else ⟨s, [], [], some PyErr.keyError⟩
    else
      if rest.length ≥ 6 then EngRes.ret s else ⟨s, [], [], some PyErr.indexError⟩
  | _ => ⟨s, [], [], some PyErr.indexError⟩

/-- `_spi_report` (lines 1496-1511): like the i2c read report, the port byte
selects one of two callbacks and an unbound one is a call on `None`. -/
def spiReport (s : Engine) (report : List Nat) : EngRes :=
  match report with
  | port :: _count :: _ =>
    if port ≠ 0 then
      if s.spi_callback2 then EngRes.ret s else ⟨s, [], [], some PyErr.typeError⟩
    else
      if s.spi_callback then EngRes.ret s else ⟨s, [], [], some PyErr.typeError⟩
  | _ => ⟨s, [], [], some PyErr.indexError⟩

/-- Invoke one handler category on a decoded payload. -/
def runHandler (h : Handler) (s : Engine) (data : List Nat) : EngRes :=
  match h with
  | .loopData => EngRes.ret s
  | .debugData => reportDebugData s data
  | .digitalMsg => digitalMessage s data
  | .analogMsg => analogMessage s data
  | .cpuTemp => cpuTempMessage s data
  | .uniqueId => reportUniqueId s data
  | .firmwareVer => reportFirmwareVersion s data
  | .servoUnavail => servoUnavailable s data
  | .i2cReadRep => i2cReadReport s data
  | .i2cTooFew => i2cByteCountFault s data
  | .i2cTooMany => i2cByteCountFault s data
  | .sonarDist => sonarDistanceReport s data
  | .dhtRep => dhtReport s data
  | .spiRep => spiReport s data

/-- One iteration of `_pico_report_dispatcher` (lines 1556-1562) on an
already-read packet: the first byte indexes `report_dispatch` (`KeyError`
on an unknown id, uncaught) and the matching handler receives the rest. -/
def dispatchStep (s : Engine) (packet : List Nat) : EngRes :=
  match packet with
  | [] => ⟨s, [], [], some PyErr.indexError⟩
  | rid :: rest =>
    match dictGet reportDispatchTable rid with
    | none => ⟨s, [], [], some PyErr.keyError⟩
    | some h => runHandler h s rest

/-- The dispatcher loop (lines 1538-1564) run over a synthetic sequence of
incoming packets: it exits when the shutdown flag is observed, and an
exception escaping a dispatch kills the loop with the remaining packets
unprocessed. -/
def dispatcherRun (s : Engine) (packets : List (List Nat)) : EngRes :=
  match packets with
  | [] => EngRes.ret s
  | p :: ps =>
    if s.shutdown_flag then EngRes.ret s
    else (dispatchStep s p).seq fun s2 => dispatcherRun s2 ps

/-- Successive PWM reservations on a list of pins, each run from the state
the previous one produced (stopping at the first raise). -/
def pwmReserveAll (s : Engine) (pins : List Nat) : EngRes :=
  pins.foldl (fun r p => r.seq fun st => set_pin_mode_pwm_output st p) (EngRes.ret s)

/-! Helper lemmas about the dictionary model, the transport step, and the
shutdown routine. -/

theorem dictGet_dictSet_self {α : Type} (d : List (Nat × α)) (k : Nat) (v : α) :
    dictGet (dictSet d k v) k = some v := by
  induction d with
  | nil => simp [dictSet, dictGet]
  | cons p rest ih =>
    obtain ⟨k2, v2⟩ := p
    by_cases h : k2 = k
    · simp [dictSet, dictGet, h]
    · simp [dictSet, dictGet, h, ih]

theorem dictMem_dictSet_self {α : Type} (d : List (Nat × α)) (k : Nat) (v : α) :
    dictMem (dictSet d k v) k = true := by
  simp [dictMem, dictGet_dictSet_self]

theorem encode_stop : encodeFrame [STOP_ALL_REPORTS] = some [1, STOP_ALL_REPORTS] := by
  decide

theorem encode_reset : encodeFrame [RESET_BOARD] = some [1, RESET_BOARD] := by
  decide

/-- `shutdown` never lets an exception escape, and it touches only the
shutdown flag, the port and the loop: the pin table and the PWM counter
survive it unchanged. -/
theorem shutdown_effects (s : Engine) :
    (shutdown s).err = none ∧
    (shutdown s).state.pico_pins = s.pico_pins ∧
    (shutdown s).state.pwm_active_count = s.pwm_active_count := by
  cases hp : s.serialPort with
  | none =>
    simp [shutdown, shutdownBody, sendCommand, encode_stop, hp, EngRes.seq,
      PyErr.shutdownSwallows]
  | some b =>
    cases b
    · simp [shutdown, shutdownBody, sendCommand, encode_stop, hp, EngRes.seq,
        PyErr.shutdownSwallows]
    · by_cases hr : s.reset_on_shutdown <;> by_cases hc : s.close_loop_on_shutdown <;>
        simp [shutdown, shutdownBody, sendCommand, encode_stop, encode_reset, hp, hr, hc,
          EngRes.seq, EngRes.ret, closePort, PyErr.shutdownSwallows]

/-- The shared raise pattern always surfaces its `RuntimeError`. -/
theorem raiseRT_err (s : Engine) (msg : String) :
    (raiseRT s msg).err = some (PyErr.runtimeError msg) := by
  have hs := (shutdown_effects s).1
  by_cases h : s.shutdown_on_exception <;> simp [raiseRT, h, hs]

/-- The shared raise pattern leaves the pin table as it found it. -/
theorem raiseRT_pico_pins (s : Engine) (msg : String) :
    (raiseRT s msg).state.pico_pins = s.pico_pins := by
  have hs := (shutdown_effects s).1
  have hpins := (shutdown_effects s).2.1
  by_cases h : s.shutdown_on_exception <;> simp [raiseRT, h, hs, hpins]

/-- The shared raise pattern leaves the PWM counter as it found it. -/
theorem raiseRT_pwm_count (s : Engine) (msg : String) :
    (raiseRT s msg).state.pwm_active_count = s.pwm_active_count := by
  have hs := (shutdown_effects s).1
  have hcnt := (shutdown_effects s).2.2
  by_cases h : s.shutdown_on_exception <;> simp [raiseRT, h, hs, hcnt]

/-- A transmit on an attached open port delivers exactly the framed bytes. -/
theorem sendCommand_ok (s : Engine) (c f : List Nat)
    (hb : encodeFrame c = some f) (hp : s.serialPort = some true) :
    sendCommand s c = ⟨s, [f], [f], none⟩ := by
  simp [sendCommand, hb, hp]

/-- A transmit that returned normally happened on an open port with byte
parameters, and delivered exactly one frame. -/
theorem sendCommand_inv (s : Engine) (c : List Nat)
    (h : (sendCommand s c).err = none) :
    (frameCommand c).all (fun b => b < 256) = true ∧ s.serialPort = some true ∧
      sendCommand s c = ⟨s, [frameCommand c], [frameCommand c], none⟩ := by
  by_cases hb : (frameCommand c).all (fun b => b < 256)
  · cases hp : s.serialPort with
    | none => simp [sendCommand, encodeFrame, hb, hp] at h
    | some b =>
      cases b
      · simp [sendCommand, encodeFrame, hb, hp] at h
      · exact ⟨hb, rfl, by simp [sendCommand, encodeFrame, hb, hp]⟩

  · simp [sendCommand, encodeFrame, hb] at h

/-- Framing a three-byte command with byte-sized fields always encodes. -/
theorem encode_three (a b c : Nat) (ha : a < 256) (hb : b < 256) (hc : c < 256) :
    encodeFrame [a, b, c] = some [3, a, b, c] := by
  simp [encodeFrame, frameCommand, ha, hb, hc]

/-- Computation of a successful `set_pin_mode_digital_output` on a known
pin, an open port and a byte-sized pin number. -/
theorem set_pin_mode_digital_output_run (s : Engine) (pin : Nat)
    (hm : dictMem s.pico_pins pin = true) (hp : s.serialPort = some true)
    (hpin : pin < 256) :
    set_pin_mode_digital_output s pin =
      ⟨{ s with pico_pins := dictSet (dictSet s.pico_pins pin AT_OUTPUT) pin AT_OUTPUT },
       [[3, SET_PIN_MODE, pin, AT_OUTPUT]], [[3, SET_PIN_MODE, pin, AT_OUTPUT]], none⟩ := by
  have henc : encodeFrame [1, pin, 1] = some [3, 1, pin, 1] :=
    encode_three 1 pin 1 (by decide) hpin (by decide)
  simp [set_pin_mode_digital_output, setPinMode, setPinModeRest, setPinModeFinish, hm,
    sendCommand, henc, hp, AT_OUTPUT, AT_ANALOG, AT_INPUT, AT_INPUT_PULLUP,
    AT_INPUT_PULL_DOWN, SET_PIN_MODE]

/-- A `set_pin_mode_digital_output` that returned normally ran on a known
pin, with an open port and a byte-sized pin number. -/
theorem set_pin_mode_digital_output_inv (s : Engine) (pin : Nat)
    (h : (set_pin_mode_digital_output s pin).err = none) :
    dictMem s.pico_pins pin = true ∧ s.serialPort = some true ∧ pin < 256 := by
  by_cases hm : dictMem s.pico_pins pin
  · have h2 : (sendCommand
        { s with pico_pins := dictSet (dictSet s.pico_pins pin AT_OUTPUT) pin AT_OUTPUT }
        [SET_PIN_MODE, pin, AT_OUTPUT]).err = none := by
      simpa [set_pin_mode_digital_output, setPinMode, setPinModeRest, setPinModeFinish, hm,
        AT_OUTPUT, AT_ANALOG, AT_INPUT, AT_INPUT_PULLUP, AT_INPUT_PULL_DOWN,
        SET_PIN_MODE] using h
    obtain ⟨hall, hp, _⟩ := sendCommand_inv _ _ h2
    refine ⟨hm, hp, ?_⟩
    simp [frameCommand, SET_PIN_MODE, AT_OUTPUT] at hall
    exact hall
  · exfalso
    have he := raiseRT_err s "Gpio Pin Number is invalid"
    simp [set_pin_mode_digital_output, setPinMode, hm, AT_OUTPUT, AT_ANALOG, he] at h

/-- Computation of a successful `set_pin_mode_servo`. -/
theorem set_pin_mode_servo_run (s : Engine) (pin mn mx : Nat)
    (hm : dictMem s.pico_pins pin = true) (hp : s.serialPort = some true)
    (hpin : pin < 256) :
    set_pin_mode_servo s pin mn mx =
      ⟨{ s with
          pico_pins :=
            dictSet (dictSet (dictSet s.pico_pins pin AT_SERVO) pin AT_SERVO) pin AT_SERVO,
          servo_ranges := dictSet s.servo_ranges pin (mn, mx) },
       [[3, SET_PIN_MODE, pin, AT_PWM_OUTPUT]], [[3, SET_PIN_MODE, pin, AT_PWM_OUTPUT]],
       none⟩ := by
  have henc : encodeFrame [1, pin, 2] = some [3, 1, pin, 2] :=
    encode_three 1 pin 2 (by decide) hpin (by decide)
  simp [set_pin_mode_servo, setPinMode, setPinModeRest, setPinModeFinish, hm,
    sendCommand, henc, hp, EngRes.seq, EngRes.ret, AT_SERVO, AT_ANALOG, AT_INPUT,
    AT_INPUT_PULLUP, AT_INPUT_PULL_DOWN, AT_OUTPUT, AT_PWM_OUTPUT, SET_PIN_MODE]

/-- A composite step that returned normally had a normal first stage. -/
theorem EngRes_seq_err_none (r : EngRes) (f : Engine → EngRes)
    (h : (r.seq f).err = none) : r.err = none := by
  cases he : r.err with
  | none => rfl
  | some e => simp [EngRes.seq, he] at h

/-- A `set_pin_mode_servo` that returned normally ran on a known pin with an
open port. -/
theorem set_pin_mode_servo_inv (s : Engine) (pin mn mx : Nat)
    (h : (set_pin_mode_servo s pin mn mx).err = none) :
    dictMem s.pico_pins pin = true ∧ s.serialPort = some true ∧ pin < 256 := by
  simp only [set_pin_mode_servo] at h
  have h1 := EngRes_seq_err_none _ _ h
  by_cases hm : dictMem s.pico_pins pin
  · simp only [setPinMode, setPinModeRest, setPinModeFinish, hm, if_true, AT_SERVO,
      AT_ANALOG, AT_INPUT, AT_INPUT_PULLUP, AT_INPUT_PULL_DOWN, AT_OUTPUT, AT_PWM_OUTPUT,
      SET_PIN_MODE, Nat.reduceBEq, Bool.false_eq_true, if_false, ite_false, ite_true,
      Bool.or_self, or_self, or_false, false_or] at h1
    obtain ⟨hall, hp, _⟩ := sendCommand_inv _ _ h1
    refine ⟨hm, hp, ?_⟩
    simp [frameCommand, SET_PIN_MODE, AT_PWM_OUTPUT] at hall
    exact hall
  · exfalso
    have he := raiseRT_err s "Gpio Pin Number is invalid"
    simp [setPinMode, hm, AT_SERVO, AT_ANALOG, he] at h1

/-- On a pin whose table entry is servo mode and whose range is stored,
`servo_write` faults with `TypeError` at the three-argument call into the
two-parameter `pwm_write`, before any transmission. -/
theorem servo_write_typeerror (s : Engine) (pin value : Nat)
    (hmode : dictGet s.pico_pins pin = some AT_SERVO)
    (hrange : (dictGet s.servo_ranges pin).isSome = true) :
    servo_write s pin value = ⟨s, [], [], some PyErr.typeError⟩ := by
  obtain ⟨⟨mn, mx⟩, hr⟩ := Option.isSome_iff_exists.mp hrange
  simp [servo_write, hmode, hr, callWithArity, pwmWriteParamCount, servoWriteCallArgCount]

/-! The claim theorems. -/

/-- C1: the claim states that every data operation called before its
mode-assigning operation fails with a mode-mismatch error and transmits
nothing.  `i2c_read` violates it: on a fresh session where
`set_pin_mode_i2c` was never called, a read on i2c port 1 runs no activity
guard at all (the `if not i2c_port == 1` ladder is dead when the port is 1),
raises nothing, and transmits the I2C read command; the port-1 callback is
not even stored. -/
theorem c1_i2c_read_port1_unguarded :
    (i2c_read readyEngine 16 (some 2) 2 true 1 false).err = none ∧
    (i2c_read readyEngine 16 (some 2) 2 true 1 false).sent =
      [[6, I2C_READ, 1, 16, 2, 2, 0]] ∧
    readyEngine.i2c_1_active = false ∧
    (i2c_read readyEngine 16 (some 2) 2 true 1 false).state.i2c_callback2 = false := by
  decide

/-- C2: the claim (and the source's own docstrings, "up to 16 pwm pins may
be simultaneously active") say the 16th PWM reservation succeeds and the
17th fails.  The guard `pwm_active_count >= 15` makes the 16th reservation
fail instead: fifteen reservations on pins 0-14 succeed, leaving the
counter at 15, and the 16th call (pin 15) raises with the counter not
incremented. -/
theorem c2_pwm_ceiling_off_by_one :
    (pwmReserveAll readyEngine (List.range 15)).err = none ∧
    (pwmReserveAll readyEngine (List.range 15)).state.pwm_active_count = 15 ∧
    (pwmReserveAll readyEngine (List.range 16)).err =
      some (PyErr.runtimeError
        "pwm or servo set mode: number of active PWM pins is at maximum") ∧
    (pwmReserveAll readyEngine (List.range 16)).state.pwm_active_count = 15 := by
  decide

/-- C3: frame round trip.  For every command id and payload of byte values
with length at most 254, encoding prepends a single length byte equal to
one plus the payload length and decoding the framed bytes returns exactly
the id and the payload; a payload of length 255 fails to encode (its length
byte would be 256, which `bytes()` rejects). -/
theorem c3_frame_round_trip :
    (∀ commandId payload, commandId < 256 → (∀ b ∈ payload, b < 256) →
        payload.length ≤ 254 →
        encodeCommand commandId payload =
          some ((payload.length + 1) :: commandId :: payload) ∧
        decodeFrame ((payload.length + 1) :: commandId :: payload) =
          some (commandId, payload)) ∧
    (∀ commandId payload, payload.length = 255 →
        encodeCommand commandId payload = none) := by
  constructor
  · intro commandId payload hid hbytes hlen
    have hall : ((payload.length + 1) :: commandId :: payload).all
        (fun b => b < 256) = true := by
      simp only [List.all_cons, Bool.and_eq_true, List.all_eq_true, decide_eq_true_eq]
      refine ⟨by omega, hid, ?_⟩
      intro b hb
      exact hbytes b hb
    constructor
    · simp [encodeCommand, encodeFrame, frameCommand, hall]
    · have htake : (commandId :: payload).take (payload.length + 1) =
          commandId :: payload := by
        have : (commandId :: payload).length = payload.length + 1 := by simp
        rw [← this, List.take_length]
      simp [decodeFrame, htake]
  · intro commandId payload hlen
    simp [encodeCommand, encodeFrame, frameCommand, hlen]

/-- C3 witness: the round trip evaluated at command id 2 with payload
`[7, 9]`, and the encode failure at a payload of 255 zero bytes. -/
theorem c3_frame_round_trip_witness :
    encodeCommand 2 [7, 9] = some [3, 2, 7, 9] ∧
    decodeFrame [3, 2, 7, 9] = some (2, [7, 9]) ∧
    encodeCommand 2 (List.replicate 255 0) = none := by
  refine ⟨?_, ?_, ?_⟩
  · exact (c3_frame_round_trip.1 2 [7, 9] (by decide) (by decide) (by decide)).1
  · exact (c3_frame_round_trip.1 2 [7, 9] (by decide) (by decide) (by decide)).2
  · exact c3_frame_round_trip.2 2 (List.replicate 255 0) (List.length_replicate 255 0)

/-- C4 counterexample: the claim states every mode-assigning operation on a
key outside the legal pin set fails and leaves the pin table unchanged.
GPIO 23 is outside the legal set, yet `set_pin_mode_neopixel` on pin 23
returns normally, transmits its command, and inserts the illegal key into
the table. -/
theorem c4_neopixel_unknown_key_counterexample :
    dictMem readyEngine.pico_pins 23 = false ∧
    (set_pin_mode_neopixel readyEngine 23 8 0 0 0).err = none ∧
    dictGet (set_pin_mode_neopixel readyEngine 23 8 0 0 0).state.pico_pins 23 =
      some AT_NEO_PIXEL := by
  decide

/-- C4 amended: only the mode-assigning operations that route through
`_set_pin_mode` with a non-analog mode (here `set_pin_mode_digital_output`)
fail on an unknown key with the invalid-pin error and leave the pin table
unchanged; `set_pin_mode_neopixel` and `set_pin_mode_sonar` perform no key
validation at all — they return normally and insert the unknown key. -/
theorem c4_amended :
    (∀ s pin, dictMem s.pico_pins pin = false →
        (set_pin_mode_digital_output s pin).err =
          some (PyErr.runtimeError "Gpio Pin Number is invalid") ∧
        (set_pin_mode_digital_output s pin).state.pico_pins = s.pico_pins) ∧
    ((set_pin_mode_neopixel readyEngine 23 8 0 0 0).err = none ∧
      dictGet (set_pin_mode_neopixel readyEngine 23 8 0 0 0).state.pico_pins 23 =
        some AT_NEO_PIXEL ∧
      (set_pin_mode_sonar readyEngine 23 24 true).err = none ∧
      dictGet (set_pin_mode_sonar readyEngine 23 24 true).state.pico_pins 23 =
        some AT_SONAR) := by
  constructor
  · intro s pin hmem
    have he := raiseRT_err s "Gpio Pin Number is invalid"
    have hpins := raiseRT_pico_pins s "Gpio Pin Number is invalid"
    simp [set_pin_mode_digital_output, setPinMode, hmem, AT_OUTPUT, AT_ANALOG, he, hpins]
  · decide

/-- C4 amended witness: the failing branch evaluated on the fresh engine at
the illegal key 23. -/
theorem c4_amended_witness :
    (set_pin_mode_digital_output readyEngine 23).err =
      some (PyErr.runtimeError "Gpio Pin Number is invalid") ∧
    (set_pin_mode_digital_output readyEngine 23).state.pico_pins =
      readyEngine.pico_pins :=
  c4_amended.1 readyEngine 23 (by decide)

/-- C5 counterexample: the claim states that reserving pin 2 as digital
output twice makes the second call fail with an already-bound error.  Both
calls return normally and the second one transmits a second mode command. -/
theorem c5_rebind_counterexample :
    (set_pin_mode_digital_output
      (set_pin_mode_digital_output readyEngine 2).state 2).err = none ∧
    (set_pin_mode_digital_output
      (set_pin_mode_digital_output readyEngine 2).state 2).sent =
      [[3, SET_PIN_MODE, 2, AT_OUTPUT]] := by
  decide

/-- C5 amended: a pin's mode is not one-shot — a second identical
mode-assigning call on the same pin succeeds silently (last write wins),
leaves the stored mode equal to the requested one, and transmits the same
mode command again; no already-bound failure exists for pins. -/
theorem c5_amended (s : Engine) (pin : Nat)
    (h : (set_pin_mode_digital_output s pin).err = none) :
    (set_pin_mode_digital_output
      (set_pin_mode_digital_output s pin).state pin).err = none ∧
    dictGet (set_pin_mode_digital_output
      (set_pin_mode_digital_output s pin).state pin).state.pico_pins pin =
      some AT_OUTPUT ∧
    (set_pin_mode_digital_output
      (set_pin_mode_digital_output s pin).state pin).sent =
      (set_pin_mode_digital_output s pin).sent := by
  obtain ⟨hm, hp, hpin⟩ := set_pin_mode_digital_output_inv s pin h
  have r1 := set_pin_mode_digital_output_run s pin hm hp hpin
  have hm1 : dictMem (dictSet (dictSet s.pico_pins pin AT_OUTPUT) pin AT_OUTPUT)
      pin = true := dictMem_dictSet_self _ _ _
  have r2 := set_pin_mode_digital_output_run
    { s with pico_pins := dictSet (dictSet s.pico_pins pin AT_OUTPUT) pin AT_OUTPUT }
    pin hm1 hp hpin
  simp [r1, r2, dictGet_dictSet_self]

/-- C5 amended witness: the double reservation evaluated on pin 2 of the
fresh engine. -/
theorem c5_amended_witness :
    (set_pin_mode_digital_output
      (set_pin_mode_digital_output readyEngine 2).state 2).err = none ∧
    dictGet (set_pin_mode_digital_output
      (set_pin_mode_digital_output readyEngine 2).state 2).state.pico_pins 2 =
      some AT_OUTPUT ∧
    (set_pin_mode_digital_output
      (set_pin_mode_digital_output readyEngine 2).state 2).sent =
      (set_pin_mode_digital_output readyEngine 2).sent :=
  c5_amended readyEngine 2 (by decide)

/-- C6 counterexample: the claim states a second `shutdown` performs no
write to the already-closed transport.  After the first `shutdown` the port
is closed, yet the second call re-runs the teardown body and attempts the
stop-all-reports write on the closed port (the resulting transport fault is
swallowed). -/
theorem c6_second_shutdown_counterexample :
    (shutdown readyEngine).state.serialPort = some false ∧
    (shutdown (shutdown readyEngine).state).attempted = [[1, STOP_ALL_REPORTS]] := by
  decide

/-- C6 amended: `shutdown` is idempotent on the engine state — a second call
returns the identical terminal state, raises nothing and delivers no bytes —
but it is not a guarded no-op: the shutdown flag is never re-checked, so the
second call attempts exactly one write (the stop-all-reports frame) to the
already-closed transport and swallows the resulting fault. -/
theorem c6_amended (s : Engine) (hp : s.serialPort = some true) :
    (shutdown (shutdown s).state).state = (shutdown s).state ∧
    (shutdown (shutdown s).state).err = none ∧
    (shutdown (shutdown s).state).sent = [] ∧
    (shutdown (shutdown s).state).attempted = [[1, STOP_ALL_REPORTS]] := by
  by_cases hr : s.reset_on_shutdown <;> by_cases hc : s.close_loop_on_shutdown <;>
    simp [shutdown, shutdownBody, sendCommand, encode_stop, encode_reset, closePort,
      EngRes.seq, EngRes.ret, hp, hr, hc, PyErr.shutdownSwallows]

/-- C6 amended witness: the double shutdown evaluated on the fresh connected
engine. -/
theorem c6_amended_witness :
    (shutdown (shutdown readyEngine).state).state = (shutdown readyEngine).state ∧
    (shutdown (shutdown readyEngine).state).err = none ∧
    (shutdown (shutdown readyEngine).state).sent = [] ∧
    (shutdown (shutdown readyEngine).state).attempted = [[1, STOP_ALL_REPORTS]] :=
  c6_amended readyEngine rfl

/-- C7 counterexample: the claim states an unknown report id funnels through
the shutdown routine so the transport is never left open.  Dispatching id 99
(absent from the table) kills the dispatcher with the uncaught lookup fault
while the shutdown flag stays clear and the transport stays open. -/
theorem c7_unknown_id_counterexample :
    (dispatchStep readyEngine [99, 0]).err = some PyErr.keyError ∧
    (dispatchStep readyEngine [99, 0]).state.shutdown_flag = false ∧
    (dispatchStep readyEngine [99, 0]).state.serialPort = some true := by
  decide

/-- C7 amended: an unknown report id is fatal to the dispatcher — the
uncaught lookup fault stops the loop with all later packets unprocessed —
but no shutdown is invoked: the engine state (flag, transport) is exactly as
before the fault and nothing is transmitted. -/
theorem c7_amended (s : Engine) (rid : Nat) (rest : List Nat) (more : List (List Nat))
    (hu : dictGet reportDispatchTable rid = none) (hrun : s.shutdown_flag = false) :
    dispatcherRun s ((rid :: rest) :: more) = ⟨s, [], [], some PyErr.keyError⟩ := by
  simp [dispatcherRun, hrun, dispatchStep, hu, EngRes.seq]

/-- C7 amended witness: report id 99 with two queued packets behind it, on
the fresh connected engine. -/
theorem c7_amended_witness :
    dispatcherRun readyEngine ([99, 0] :: [[2, 5, 1], [3, 0, 1, 0]]) =
      ⟨readyEngine, [], [], some PyErr.keyError⟩ :=
  c7_amended readyEngine 99 [0] [[2, 5, 1], [3, 0, 1, 0]] (by decide) rfl

/-- C8 counterexample: the claim states a report for a key with no
registered callback is dropped without any error escaping the dispatcher.
A digital report for pin 5 on a fresh engine (no binding) makes the bare
callback lookup fault, and the fault escapes the dispatch step. -/
theorem c8_missing_binding_counterexample :
    (dispatchStep readyEngine [DIGITAL_REPORT, 5, 1]).err = some PyErr.keyError := by
  decide

/-- C8 amended: a digital report whose pin has no registered callback makes
the dispatcher fault with the uncaught lookup error (the report is not
dropped gracefully; only the DHT data path catches this case), leaving the
engine state untouched and transmitting nothing. -/
theorem c8_amended (s : Engine) (pin value : Nat) (extra : List Nat)
    (hmiss : keyMem s.digital_callbacks pin = false) :
    dispatchStep s (DIGITAL_REPORT :: pin :: value :: extra) =
      ⟨s, [], [], some PyErr.keyError⟩ := by
  have ht : dictGet reportDispatchTable 2 = some Handler.digitalMsg := by decide
  simp [dispatchStep, DIGITAL_REPORT, ht, runHandler, digitalMessage, hmiss]

/-- C8 amended witness: the unbound digital report for pin 5 on the fresh
engine. -/
theorem c8_amended_witness :
    dispatchStep readyEngine (DIGITAL_REPORT :: 5 :: 1 :: []) =
      ⟨readyEngine, [], [], some PyErr.keyError⟩ :=
  c8_amended readyEngine 5 1 [] (by decide)

/-- C9: on every pin successfully configured by `set_pin_mode_servo`, every
`servo_write` call raises `TypeError` before any command byte is
transmitted, because it invokes `pwm_write` with three positional arguments
against a two-parameter signature. -/
theorem c9_servo_write_raises_typeerror (s : Engine) (pin mn mx value : Nat)
    (h : (set_pin_mode_servo s pin mn mx).err = none) :
    servo_write (set_pin_mode_servo s pin mn mx).state pin value =
      ⟨(set_pin_mode_servo s pin mn mx).state, [], [], some PyErr.typeError⟩ := by
  obtain ⟨hm, hp, hpin⟩ := set_pin_mode_servo_inv s pin mn mx h
  have r1 := set_pin_mode_servo_run s pin mn mx hm hp hpin
  rw [r1]
  apply servo_write_typeerror
  · simp [dictGet_dictSet_self]
  · simp [dictGet_dictSet_self]

/-- C9 witness: servo setup on pin 2 of the fresh engine, then a write of
90 degrees, faulting with `TypeError` and transmitting nothing. -/
theorem c9_servo_write_raises_typeerror_witness :
    servo_write (set_pin_mode_servo readyEngine 2 1000 2000).state 2 90 =
      ⟨(set_pin_mode_servo readyEngine 2 1000 2000).state, [], [],
        some PyErr.typeError⟩ :=
  c9_servo_write_raises_typeerror readyEngine 2 1000 2000 90 (by decide)

/-- C10: calling `set_pin_mode_pwm_output` on a known pin while the PWM
counter is at its ceiling raises, yet the pin table has already been
mutated to PWM-output mode, and the counter is not incremented. -/
theorem c10_capacity_failure_still_marks_pin (s : Engine) (pin : Nat)
    (hmem : dictMem s.pico_pins pin = true) (hcap : 15 ≤ s.pwm_active_count) :
    (set_pin_mode_pwm_output s pin).err =
      some (PyErr.runtimeError
        "pwm or servo set mode: number of active PWM pins is at maximum") ∧
    dictGet (set_pin_mode_pwm_output s pin).state.pico_pins pin =
      some AT_PWM_OUTPUT ∧
    (set_pin_mode_pwm_output s pin).state.pwm_active_count = s.pwm_active_count := by
  have he := raiseRT_err { s with pico_pins := dictSet s.pico_pins pin AT_PWM_OUTPUT }
    "pwm or servo set mode: number of active PWM pins is at maximum"
  have hpins := raiseRT_pico_pins
    { s with pico_pins := dictSet s.pico_pins pin AT_PWM_OUTPUT }
    "pwm or servo set mode: number of active PWM pins is at maximum"
  have hcnt := raiseRT_pwm_count
    { s with pico_pins := dictSet s.pico_pins pin AT_PWM_OUTPUT }
    "pwm or servo set mode: number of active PWM pins is at maximum"
  simp [set_pin_mode_pwm_output, hmem, hcap, he, hpins, hcnt, dictGet_dictSet_self]

/-- C10 witness: the fresh engine with the counter forced to the ceiling,
on pin 5. -/
theorem c10_capacity_failure_still_marks_pin_witness :
    (set_pin_mode_pwm_output { readyEngine with pwm_active_count := 15 } 5).err =
      some (PyErr.runtimeError
        "pwm or servo set mode: number of active PWM pins is at maximum") ∧
    dictGet (set_pin_mode_pwm_output
      { readyEngine with pwm_active_count := 15 } 5).state.pico_pins 5 =
      some AT_PWM_OUTPUT ∧
    (set_pin_mode_pwm_output
      { readyEngine with pwm_active_count := 15 } 5).state.pwm_active_count = 15 :=
  c10_capacity_failure_still_marks_pin { readyEngine with pwm_active_count := 15 } 5
    (by decide) (by decide)

end Telemetrix
